import Mathlib

/-!
Verification of the MusicForge API core against its specification.

The definitions below are a shallow embedding of the TypeScript sources:

* `src/backend/src/middleware/rateLimit.ts` — tiered rate limiting
  (`RATE_LIMITS`, `rateLimitMiddleware`, `getRateLimitStatus`);
* `src/backend/src/middleware/auth.ts` — API-key authentication gate;
* the music controller (`processMusic`, `calculateConfidenceScore`,
  `saveTrackToDatabase`) and the LLM / YouTube service wrappers.

External collaborators (Redis, Postgres, OpenAI, YouTube, analysis
providers) are modelled as explicit state (association lists) or as
oracle functions passed to the embedded code, so every definition is
executable and every theorem can be checked on concrete inputs.

Machine integers: all TypeScript numbers involved here are small
non-negative integers (counters, limits, millisecond timestamps), far
from any floating-point or overflow boundary, so they are modelled as
`Nat`; JavaScript `Math.max(0, a - b)` coincides with truncated `Nat`
subtraction.  Fractional confidence arithmetic is modelled over `ℚ`.
-/

namespace MusicForge

/-! ## Rate limiting (src/backend/src/middleware/rateLimit.ts) -/

/-- Per-plan limit entry, from the `RATE_LIMITS` record:
`{ requests: number; windowMs: number }`. -/
structure RateLimitConfig where
  requests : Nat
  windowMs : Nat
  deriving Repr, DecidableEq

/-- The `RATE_LIMITS` record (rateLimit.ts lines 7-13), as a lookup by
plan name returning `none` for keys absent from the record. -/
def RATE_LIMITS : String → Option RateLimitConfig
  | "free" => some ⟨100, 3600000⟩
  | "starter" => some ⟨1000, 3600000⟩
  | "pro" => some ⟨10000, 3600000⟩
  | "scale" => some ⟨50000, 3600000⟩
  | "enterprise" => some ⟨200000, 3600000⟩
  | _ => none

/-- `RATE_LIMITS.free`, the fallback of `RATE_LIMITS[plan] || RATE_LIMITS.free`. -/
def freeLimits : RateLimitConfig := ⟨100, 3600000⟩

/-- `RATE_LIMITS[plan] || RATE_LIMITS.free` (rateLimit.ts line 36 and 176). -/
def limitsFor (plan : String) : RateLimitConfig :=
  (RATE_LIMITS plan).getD freeLimits

/-- The Redis counter store: an association list from keys to counter
values.  `redis.get` of an absent key is `null`, parsed to count 0. -/
abbrev Store := List (String × Nat)

def Store.empty : Store := []

def Store.get (s : Store) (k : String) : Option Nat :=
  (List.lookup k s)

/-- `redis.incr key`: atomically set the key to (current or 0) + 1. -/
def Store.incr (s : Store) (k : String) : Store :=
  match s with
  | [] => [(k, 1)]
  | (k2, v) :: t => if k = k2 then (k2, v + 1) :: t else (k2, v) :: Store.incr t k

/-- The Redis key `rate_limit:${userId}:${windowStart}` (line 40). -/
def rateLimitKey (userId : String) (windowStart : Nat) : String :=
  "rate_limit:" ++ userId ++ ":" ++ toString windowStart

/-- Outcome of one pass through `rateLimitMiddleware` for an
authenticated request: HTTP status (429 on denial, 200 standing for
"call next()"), the reported limit / remaining / reset metadata, and
the updated counter store. -/
structure RateLimitOutcome where
  allowed : Bool
  httpStatus : Nat
  errorCode : Option String
  limit : Nat
  remaining : Nat
  resetTime : Nat
  deriving Repr, DecidableEq

/-- One authenticated pass through `rateLimitMiddleware`
(rateLimit.ts lines 34-115), at wall-clock time `now` (ms).

Line-by-line correspondence:
* `limits := RATE_LIMITS[plan] || RATE_LIMITS.free` (line 36);
* `windowStart := floor(now / windowMs) * windowMs` (line 39);
* `requestCount := parseInt(await redis.get(key)) or 0` (lines 43-44);
* `remaining := max(0, requests - requestCount - 1)` (line 50), which
  over `Nat` is truncated subtraction;
* denial when `requestCount >= limits.requests` (line 55) answers 429
  with the store untouched (the function returns before `redis.incr`);
* otherwise `redis.incr key` (line 88) and `next()`. -/
def rateLimitMiddleware (store : Store) (userId plan : String) (now : Nat) :
    RateLimitOutcome × Store :=
  let limits := limitsFor plan
  let windowStart := now / limits.windowMs * limits.windowMs
  let key := rateLimitKey userId windowStart
  let requestCount := (store.get key).getD 0
  let resetTime := windowStart + limits.windowMs
  let remaining := limits.requests - requestCount - 1
  if limits.requests ≤ requestCount then
    (⟨false, 429, some "RATE_LIMIT_EXCEEDED", limits.requests, remaining, resetTime⟩,
      store)
  else
    (⟨true, 200, none, limits.requests, remaining, resetTime⟩, store.incr key)

/-- Run `rateLimitMiddleware` over a sequence of request timestamps for
a fixed subject, returning the outcome of every check in order. -/
def runRequests (userId plan : String) : List Nat → Store → List RateLimitOutcome × Store
  | [], store => ([], store)
  | t :: ts, store =>
    let (o, store2) := rateLimitMiddleware store userId plan t
    let (os, store3) := runRequests userId plan ts store2
    (o :: os, store3)

/-- `getRateLimitStatus` (rateLimit.ts lines 175-188): read-only status,
`remaining = max(0, requests - requestCount)`. -/
def getRateLimitStatus (store : Store) (userId plan : String) (now : Nat) :
    RateLimitOutcome :=
  let limits := limitsFor plan
  let windowStart := now / limits.windowMs * limits.windowMs
  let key := rateLimitKey userId windowStart
  let requestCount := (store.get key).getD 0
  ⟨true, 200, none, limits.requests, limits.requests - requestCount,
    windowStart + limits.windowMs⟩

/-! ### The dual-window rate limiter described by the specification

The spec (§4.2) and the repository's own documentation
(`src/docs/features/AUTHENTICATION_RATE_LIMITING.md`) describe a
*dual-window* limiter — a sustained hourly window plus a short burst
window, both counters incremented unconditionally — which the shipped
middleware does not implement.  The definitions below follow the
documented design so its behaviour can be compared with the code. -/

/-- Modelled from the spec: the per-plan dual-window configuration of
§4.2 / the `RateLimitConfig` table in the repository documentation,
which the implementation's `RATE_LIMITS` record lacks (`burstRequests`,
`burstWindowMs` are absent from `rateLimit.ts`). -/
structure DualRateLimitConfig where
  requests : Nat
  windowMs : Nat
  burstRequests : Nat
  burstWindowMs : Nat
  deriving Repr, DecidableEq

/-- Modelled from the spec: the documented tier table with burst
allowances (AUTHENTICATION_RATE_LIMITING.md "Tiered Rate Limits"). -/
def DUAL_RATE_LIMITS : String → Option DualRateLimitConfig
  | "free" => some ⟨100, 3600000, 10, 60000⟩
  | "starter" => some ⟨1000, 3600000, 50, 60000⟩
  | "pro" => some ⟨10000, 3600000, 200, 60000⟩
  | "scale" => some ⟨50000, 3600000, 1000, 60000⟩
  | "enterprise" => some ⟨200000, 3600000, 5000, 60000⟩
  | _ => none

/-- Outcome of the documented dual-window `check`: whether the main
(sustained) and burst windows each permit the request, the overall
decision, and on denial the window named by the response
(`limitType ∈ {hourly, burst}`, `hourly` when the sustained window is
violated, `burst` otherwise). -/
structure DualOutcome where
  allowed : Bool
  mainAllowed : Bool
  burstAllowed : Bool
  limitType : Option String
  deriving Repr, DecidableEq

/-- Modelled from the spec: one documented `checkRateLimit` pass for one
window kind — increment the counter unconditionally, then
`allowed = currentCount <= maxRequests`. -/
def specCheckWindow (store : Store) (userId kind : String)
    (windowMs maxRequests now : Nat) : Bool × Store :=
  let windowStart := now / windowMs * windowMs
  let key := "rate_limit:" ++ userId ++ ":" ++ kind ++ ":" ++ toString windowStart
  let store2 := store.incr key
  let currentCount := (store2.get key).getD 0
  (decide (currentCount ≤ maxRequests), store2)

/-- Modelled from the spec: the documented dual-window middleware —
check both windows, allow iff both allow, and on denial name the
sustained (`"hourly"`) window when it is violated, else the burst one. -/
def specDualRateLimitCheck (store : Store) (userId plan : String) (now : Nat) :
    DualOutcome × Store :=
  let limits := (DUAL_RATE_LIMITS plan).getD ⟨100, 3600000, 10, 60000⟩
  let (mainAllowed, store2) :=
    specCheckWindow store userId "main" limits.windowMs limits.requests now
  let (burstAllowed, store3) :=
    specCheckWindow store2 userId "burst" limits.burstWindowMs limits.burstRequests now
  if mainAllowed && burstAllowed then
    (⟨true, mainAllowed, burstAllowed, none⟩, store3)
  else
    (⟨false, mainAllowed, burstAllowed,
       some (if !mainAllowed then "hourly" else "burst")⟩, store3)

/-- Run the documented dual-window check over a request trace. -/
def specRunRequests (userId plan : String) :
    List Nat → Store → List DualOutcome × Store
  | [], store => ([], store)
  | t :: ts, store =>
    let (o, store2) := specDualRateLimitCheck store userId plan t
    let (os, store3) := specRunRequests userId plan ts store2
    (o :: os, store3)

/-- The timestamp trace of the window-rollover scenario: 1001 requests
at time 0 (all inside the first one-hour tumbling window), then one
request exactly one window later. -/
def rolloverTrace : List Nat := List.replicate 1000 0 ++ [0, 3600000]

/-! ## Authentication gate (src/backend/src/middleware/auth.ts) -/

/-- JavaScript `s.startsWith(pre)`, rendered over the character list so
that it is executable by the kernel. -/
def jsStartsWith (s pre : String) : Bool :=
  s.toList.take pre.length == pre.toList

/-- Where `authMiddleware` stands after its header checks: the request
was rejected before any lookup (missing header → `MISSING_API_KEY`,
header without the `mf_` prefix → `INVALID_API_KEY_FORMAT`), or the key
proceeds to the hash-keyed cache / database lookup. -/
inductive AuthDecision where
  | missingKey : AuthDecision
  | badFormat : AuthDecision
  | lookupKey : String → AuthDecision
  deriving Repr, DecidableEq

/-- The pre-lookup portion of `authMiddleware` (auth.ts lines 24-56):
reject a missing header, then reject a header that does not start with
`"mf_"` with `INVALID_API_KEY_FORMAT`; any other header value reaches
the `sha256`-hash cache/database lookup.  No length or character-set
check appears in the source. -/
def authFormatGate (header : Option String) : AuthDecision :=
  match header with
  | none => .missingKey
  | some h =>
    if !(jsStartsWith h "mf_") then .badFormat
    else .lookupKey h

/-- The API-key format named by the claim: the fixed prefix `"mf_"`
followed by exactly 64 lowercase hexadecimal characters (total length
67).  Stated from the spec's words for comparison with
`authFormatGate`. -/
def claimedKeyFormat (h : String) : Bool :=
  jsStartsWith h "mf_" && h.length == 67
    && (h.toList.drop 3).all fun c => ('a' ≤ c && c ≤ 'f') || ('0' ≤ c && c ≤ '9')

/-! ## The music-processing pipeline (music controller, LLM service,
YouTube service) -/

/-- A BPM filter range, `processedQuery.filters.bpm` with optional
`min` / `max` ends. -/
structure BpmRange where
  min : Option ℚ
  max : Option ℚ
  deriving Repr, DecidableEq

/-- The filters of a `ProcessedQuery`.  Only the BPM range is carried:
the key/genre/mood/energy/duration filters present in the TypeScript
interface are never read by any of the embedded operations
(`calculateConfidenceScore` reads only `filters?.bpm`, and the search
stage reads only `searchTerms`). -/
structure Filters where
  bpm : Option BpmRange := none
  deriving Repr, DecidableEq

/-- `ProcessedQuery` as produced by `LLMService.processRequest`. -/
structure ProcessedQuery where
  intent : String
  searchTerms : List String
  filters : Filters := {}
  maxResults : Nat := 10
  sortBy : String := "relevance"
  deriving Repr, DecidableEq

/-- `LLMService.processRequest` (llm service, lines 323-436) with the
outcome of the external OpenAI call supplied as an oracle: `none` when
the call (or the JSON parse, or the intent validation) fails, `some q`
when it yields a structured query.  On success the `|| 10` /
`|| 'relevance'` defaults are applied (JavaScript `||`: `0` and the
empty string count as absent); on any failure the catch block
substitutes the fallback query `intent = "search"`,
`searchTerms = [userInput]`, empty filters — the caller never sees the
failure. -/
def LLMService.processRequest (userInput : String)
    (llmOutcome : Option ProcessedQuery) : ProcessedQuery :=
  match llmOutcome with
  | some q =>
    if q.intent = "" then
      ⟨"search", [userInput], {}, 10, "relevance"⟩
    else
      { q with
        maxResults := if q.maxResults = 0 then 10 else q.maxResults,
        sortBy := if q.sortBy = "" then "relevance" else q.sortBy }
  | none => ⟨"search", [userInput], {}, 10, "relevance"⟩

/-- One YouTube search result (the fields the controller reads). -/
structure YTResult where
  id : String
  title : String
  description : String
  deriving Repr, DecidableEq

/-- The de-duplication of the controller (part_003 lines 69-70):
`allResults.filter((result, index, arr) =>
arr.findIndex(r => r.id === result.id) === index)` — an element is kept
exactly when the first index in the full array holding its `id` is its
own index.  `full` is the whole array, `i` the index of the head of the
remaining suffix. -/
def dedupeByIdAux (full : List YTResult) : Nat → List YTResult → List YTResult
  | _, [] => []
  | i, r :: t =>
    if full.findIdx? (fun q => q.id == r.id) = some i then
      r :: dedupeByIdAux full (i + 1) t
    else
      dedupeByIdAux full (i + 1) t

def dedupeById (l : List YTResult) : List YTResult :=
  dedupeByIdAux l 0 l

/-- First-occurrence de-duplication in its natural recursive form, used
to reason about `dedupeById` (the two are proved equal in
`dedupeById_eq_keepFirstById`). -/
def keepFirstById : List YTResult → List YTResult
  | [] => []
  | a :: t => a :: keepFirstById (t.filter fun r => !(r.id == a.id))
  termination_by l => l.length
  decreasing_by
    simp only [List.length_cons]
    exact Nat.lt_succ_of_le (List.length_filter_le _ _)

/-- `uniqueResults` (part_003 lines 69-71): flatten the per-term result
lists in term order (`Promise.all` yields them positioned by term,
regardless of completion order), keep the first occurrence of each
external ID, and truncate to `maxTracks`. -/
def mergeUnique (searchResults : List (List YTResult)) (maxTracks : Nat) :
    List YTResult :=
  (dedupeById searchResults.flatten).take maxTracks

/-- Extended metadata from `youtubeService.getVideoMetadata` (`null` on
failure — the service catches internally). -/
structure VideoMetadata where
  title : String
  artist : String
  duration : Nat
  deriving Repr, DecidableEq

/-- Metadata guessed by `llmService.extractMetadata` (empty on failure —
the service catches internally). -/
structure ExtractedMeta where
  genre : Option String := none
  mood : Option String := none
  bpm : Option ℚ := none
  key : Option String := none
  deriving Repr, DecidableEq

/-- An audio-analysis result (`audioAnalysisService.analyzeFromUrl`). -/
structure AnalysisResult where
  bpm : Option ℚ := none
  musicalKey : Option String := none
  camelotKey : Option String := none
  energyLevel : Option ℚ := none
  loudness : Option ℚ := none
  waveformPeaks : Option (List ℚ) := none
  genre : Option String := none
  mood : Option String := none
  tempoConfidence : ℚ := 0
  keyConfidence : ℚ := 0
  deriving Repr, DecidableEq

/-- The track record assembled by the controller (the fields the
embedded operations read or write; timestamps and URLs that no claim
mentions are omitted). -/
structure Track where
  youtubeId : String
  title : String
  artist : Option String := none
  bpm : Option ℚ := none
  musicalKey : Option String := none
  camelotKey : Option String := none
  energyLevel : Option ℚ := none
  loudness : Option ℚ := none
  waveformPeaks : Option (List ℚ) := none
  genre : Option String := none
  mood : Option String := none
  tempoConfidence : Option ℚ := none
  keyConfidence : Option ℚ := none
  audioUrl : Option String := none
  analysisStatus : String := "pending"
  deriving Repr, DecidableEq

/-- JavaScript truthiness for an optional number (`0` is falsy). -/
def truthyNum : Option ℚ → Bool
  | none => false
  | some v => v != 0

/-- JavaScript truthiness for an optional string (`""` is falsy). -/
def truthyStr : Option String → Bool
  | none => false
  | some s => s != ""

/-- The external collaborators of one `processMusic` run, as oracles:
* `llm` — outcome of the understanding call (see
  `LLMService.processRequest`);
* `search term count` — `youtubeService.searchMusic`, which *throws*
  on an underlying search error (part_007 line 95);
* `metadata` — `getVideoMetadata`, `none` on failure;
* `extractMeta title description` — `extractMetadata`, empty on
  failure;
* `download id quality` — `getDownloadUrl`, throws on failure;
* `analyze url` — `analyzeFromUrl`, throws on failure. -/
structure Collaborators where
  llm : Option ProcessedQuery
  search : String → Nat → Except Unit (List YTResult)
  metadata : String → Option VideoMetadata
  extractMeta : String → String → ExtractedMeta
  download : String → String → Except Unit String
  analyze : String → Except Unit AnalysisResult

/-- `Promise.all` over the per-term searches: all fulfil, in term
order, or the first rejection aborts the aggregate. -/
def searchAll (c : Collaborators) (count : Nat) :
    List String → Except Unit (List (List YTResult))
  | [] => .ok []
  | term :: ts =>
    match c.search term count with
    | .error e => .error e
    | .ok rs =>
      match searchAll c count ts with
      | .error e => .error e
      | .ok rest => .ok (rs :: rest)

/-- Steps 3a-3c of the controller loop (part_003 lines 87-143) for one
candidate: metadata fetch, LLM metadata guesses (each applied only when
truthy), then — when requested — download-URL resolution plus audio
analysis inside one `try`, whose failure merely marks the track's
`analysisStatus` as `"failed"`.  Every conditional assignment mirrors a
line of the source, including the JavaScript truthiness guards and the
`!== undefined` checks. -/
def buildTrack (c : Collaborators) (analyzeAudioFlag : Bool) (quality : String)
    (yt : YTResult) : Track :=
  let md := c.metadata yt.id
  let resolvedTitle :=
    match md with
    | some m => if m.title = "" then yt.title else m.title
    | none => yt.title
  let track : Track :=
    { youtubeId := yt.id
      title := resolvedTitle
      artist := md.map fun m => m.artist
      analysisStatus := "pending" }
  let em := c.extractMeta track.title yt.description
  let track := if truthyStr em.genre then { track with genre := em.genre } else track
  let track := if truthyStr em.mood then { track with mood := em.mood } else track
  let track := if truthyNum em.bpm then { track with bpm := em.bpm } else track
  let track := if truthyStr em.key then { track with musicalKey := em.key } else track
  if analyzeAudioFlag then
    match c.download yt.id quality with
    | .error _ => { track with analysisStatus := "failed" }
    | .ok url =>
      let track := { track with audioUrl := some url }
      match c.analyze url with
      | .error _ => { track with analysisStatus := "failed" }
      | .ok a =>
        let track := if truthyNum a.bpm then { track with bpm := a.bpm } else track
        let track :=
          if truthyStr a.musicalKey then { track with musicalKey := a.musicalKey }
          else track
        let track :=
          if truthyStr a.camelotKey then { track with camelotKey := a.camelotKey }
          else track
        let track :=
          if a.energyLevel.isSome then { track with energyLevel := a.energyLevel }
          else track
        let track :=
          if a.loudness.isSome then { track with loudness := a.loudness } else track
        let track :=
          if a.waveformPeaks.isSome then { track with waveformPeaks := a.waveformPeaks }
          else track
        let track :=
          if truthyStr a.genre && !(truthyStr track.genre) then
            { track with genre := a.genre }
          else track
        let track :=
          if truthyStr a.mood && !(truthyStr track.mood) then
            { track with mood := a.mood }
          else track
        { track with
          tempoConfidence := some a.tempoConfidence,
          keyConfidence := some a.keyConfidence,
          analysisStatus := "completed" }
  else
    track

/-- JavaScript `x || d` for an optional number (`none` and `0` both
give the default). -/
def jsOrNum (o : Option ℚ) (d : ℚ) : ℚ :=
  match o with
  | none => d
  | some v => if v = 0 then d else v

/-- `calculateConfidenceScore` (part_003 lines 407-435): base 0.5, a
capped yield bonus, an analysis-coverage bonus, a BPM-filter-match
bonus computed among analyzed tracks only, the sum capped at 1; zero
tracks short-circuit to 0. -/
def calculateConfidenceScore (processedQuery : ProcessedQuery)
    (tracks : List Track) : ℚ :=
  if tracks.length = 0 then 0
  else
    let score : ℚ := 0.5
    let score := score + min ((tracks.length : ℚ) / 10) 0.3
    let analyzedTracks := tracks.filter fun t => t.analysisStatus == "completed"
    let score :=
      if 0 < analyzedTracks.length then
        score + ((analyzedTracks.length : ℚ) / (tracks.length : ℚ)) * 0.2
      else score
    let score :=
      match processedQuery.filters.bpm with
      | none => score
      | some range =>
        if 0 < analyzedTracks.length then
          let matchingBPM := analyzedTracks.filter fun t =>
            match t.bpm with
            | none => false
            | some b =>
              b ≠ 0 && jsOrNum range.min 0 ≤ b && b ≤ jsOrNum range.max 200
          if 0 < matchingBPM.length then
            score + ((matchingBPM.length : ℚ) / (analyzedTracks.length : ℚ)) * 0.2
          else score
        else score
    min score 1

/-- The confidence formula in the claim's words: `0.5 + min(n/10, 0.3)`,
plus `(analyzed/n)·0.2` when at least one track completed analysis,
plus `(bpmMatches/analyzed)·0.2` when a BPM filter is present and at
least one analyzed track exists (only analyzed tracks counted), clamped
into `[0,1]`, and exactly `0` on an empty list.  Stated from the spec's
words for comparison with `calculateConfidenceScore`. -/
def claimedConfidence (processedQuery : ProcessedQuery)
    (tracks : List Track) : ℚ :=
  if tracks.length = 0 then 0
  else
    let n : ℚ := tracks.length
    let analyzedTracks := tracks.filter fun t => t.analysisStatus == "completed"
    let a : ℚ := analyzedTracks.length
    let coverBonus : ℚ := if 0 < analyzedTracks.length then a / n * 0.2 else 0
    let bpmBonus : ℚ :=
      match processedQuery.filters.bpm with
      | none => 0
      | some range =>
        if 0 < analyzedTracks.length then
          ((analyzedTracks.filter fun t =>
            match t.bpm with
            | none => false
            | some b =>
              b ≠ 0 && jsOrNum range.min 0 ≤ b && b ≤ jsOrNum range.max 200).length : ℚ)
            / a * 0.2
        else 0
    min (0.5 + min (n / 10) 0.3 + coverBonus + bpmBonus) 1

/-- A processing-step log entry (`{step, status}`; statuses are
`"completed"` or `"failed"`; the wall-clock `duration` is not
modelled). -/
structure ProcessingStep where
  step : String
  status : String
  deriving Repr, DecidableEq

/-- The observable response of one `processMusic` call. -/
structure MusicResponse where
  httpStatus : Nat
  errorCode : Option String
  tracks : List Track
  totalFound : Nat
  processingSteps : List ProcessingStep
  confidence : ℚ
  deriving Repr, DecidableEq

/-- `processMusic` (part_003 lines 22-210) with external collaborators
supplied as oracles.  Control flow:
* missing/empty request text → `400 INVALID_REQUEST` (the empty string
  is falsy);
* Step 1 always succeeds from the controller's view
  (`LLMService.processRequest` absorbs its own failures) and is always
  logged `completed`;
* Step 2 fans out one search per term over the first three terms, each
  asked for `ceil(maxTracks / searchTerms.length)` results; a rejection
  of any sub-search rejects the `Promise.all` and falls through to the
  outer catch, answering `500 PROCESSING_ERROR`;
* Step 3 converts each merged candidate via `buildTrack`; all
  collaborator failures there are absorbed per candidate, so no track
  is dropped and the step is logged `completed`.  (`saveTrackToDatabase`
  and the request log swallow their own errors and do not affect the
  response; the database effect is modelled separately by
  `saveTrackToDatabase` below.) -/
def processMusic (c : Collaborators) (userQuery : String) (maxTracks : Nat)
    (analyzeAudioFlag : Bool) (quality : String) : MusicResponse :=
  if userQuery = "" then
    ⟨400, some "INVALID_REQUEST", [], 0, [], 0⟩
  else
    let processedQuery := LLMService.processRequest userQuery c.llm
    let perTermCount :=
      (maxTracks + processedQuery.searchTerms.length - 1)
        / processedQuery.searchTerms.length
    match searchAll c perTermCount (processedQuery.searchTerms.take 3) with
    | .error _ => ⟨500, some "PROCESSING_ERROR", [], 0, [], 0⟩
    | .ok searchResults =>
      let uniqueResults := mergeUnique searchResults maxTracks
      let tracks := uniqueResults.map (buildTrack c analyzeAudioFlag quality)
      let confidence := calculateConfidenceScore processedQuery tracks
      ⟨200, none, tracks, tracks.length,
        [⟨"llm_processing", "completed"⟩, ⟨"youtube_search", "completed"⟩,
         ⟨"track_processing", "completed"⟩], confidence⟩

/-! ## Candidate persistence (saveTrackToDatabase, part_003
lines 339-368) -/

/-- The `ON CONFLICT (youtube_id) DO UPDATE SET` merge rule of the
upsert: `title`, `artist` and `analysis_status` always take the new
row's value, `bpm` and `musical_key` are `COALESCE(EXCLUDED.x,
tracks.x)` (new when present, else stored), and every column absent
from the `SET` list — camelot key, energy, loudness, confidences,
waveform, genre, mood, and the rest — keeps the stored value. -/
def mergeOnConflict (old new : Track) : Track :=
  { old with
    title := new.title,
    artist := new.artist,
    bpm := new.bpm.or old.bpm,
    musicalKey := new.musicalKey.or old.musicalKey,
    analysisStatus := new.analysisStatus }

/-- `saveTrackToDatabase` as a transformation of the `tracks` table
(one row per `youtube_id`, enforced by the unique constraint the
`ON CONFLICT` clause targets): insert, or merge into the conflicting
row. -/
def saveTrackToDatabase : List Track → Track → List Track
  | [], t => [t]
  | row :: rest, t =>
    if row.youtubeId == t.youtubeId then mergeOnConflict row t :: rest
    else row :: saveTrackToDatabase rest t

/-- A concrete collaborator assignment in which the understanding call
fails and every search succeeds with one fixed result (used to
instantiate the degradation theorems). -/
def fallbackDemoCollab : Collaborators where
  llm := none
  search := fun _ _ => .ok [⟨"vid1", "Test Song", "a description"⟩]
  metadata := fun _ => none
  extractMeta := fun _ _ => {}
  download := fun _ _ => .error ()
  analyze := fun _ => .error ()

/-- A concrete collaborator assignment in which every search sub-query
fails (and the understanding call also fails, so the fallback single
term is searched). -/
def failingSearchCollab : Collaborators where
  llm := none
  search := fun _ _ => .error ()
  metadata := fun _ => none
  extractMeta := fun _ _ => {}
  download := fun _ _ => .error ()
  analyze := fun _ => .error ()

/-- A stored `tracks` row from a first pipeline run ("X", old title,
BPM 120, energy 0.5). -/
def storedTrack : Track :=
  { youtubeId := "X", title := "Old Title", bpm := some 120,
    energyLevel := some 0.5, analysisStatus := "completed" }

/-- The same candidate produced by a second run: new title, no BPM,
and a newly supplied energy level 0.9. -/
def rerunTrack : Track :=
  { youtubeId := "X", title := "New Title", bpm := none,
    energyLevel := some 0.9, analysisStatus := "completed" }

/-! ## Theorems: rate limiting -/

/-- Helper: `RATE_LIMITS` has no entry for a plan outside the five
known tiers. -/
lemma RATE_LIMITS_unknown (plan : String) (h1 : plan ≠ "free")
    (h2 : plan ≠ "starter") (h3 : plan ≠ "pro") (h4 : plan ≠ "scale")
    (h5 : plan ≠ "enterprise") : RATE_LIMITS plan = none := by
  unfold RATE_LIMITS
  split <;> simp_all

/-- C1.  The claim says the rate-limit check maintains two counters
(sustained and burst) and denies a subject that is within sustained
quota but over burst quota, naming the burst window.  The shipped
middleware maintains a single hourly counter and no burst window at
all: eleven requests issued by a free-plan subject within the same
millisecond (burst count 11, over the documented burst allowance of 10
per minute, hourly count 11 within the hourly limit of 100) are all
allowed by the code, while the documented dual-window check denies the
eleventh naming the burst window. -/
theorem c1_no_burst_window_all_requests_allowed :
    ((runRequests "u" "free" (List.replicate 11 0) Store.empty).fst.all
        fun o => o.allowed) = true
    ∧ (specRunRequests "u" "free" (List.replicate 11 0) Store.empty).fst.getLast?
        = some ⟨false, true, false, some "burst"⟩ := by
  constructor <;> decide

/-- C3.  The claim says every check increments the window counter even
when the check ends in denial, so rejected requests still consume
quota.  In the code the denial branch returns before `redis.incr`: for
a starter-plan subject whose current-window counter stands at 1000,
the check is denied with 429 and the stored counter is still 1000
afterwards, not 1001. -/
theorem c3_denied_request_leaves_counter_unchanged :
    (rateLimitMiddleware [(rateLimitKey "u" 0, 1000)] "u" "starter" 0).fst.httpStatus
        = 429
    ∧ (rateLimitMiddleware [(rateLimitKey "u" 0, 1000)] "u" "starter" 0).fst.allowed
        = false
    ∧ ((rateLimitMiddleware [(rateLimitKey "u" 0, 1000)] "u" "starter" 0).snd.get
        (rateLimitKey "u" 0)) = some 1000 := by
  refine ⟨?_, ?_, ?_⟩ <;> decide

set_option maxRecDepth 200000 in
/-- C4.  Starter-plan window rollover: the first 1000 checks inside one
tumbling window are all allowed, the 1001st check in the same window is
denied with HTTP 429, and the first check in the immediately following
window is allowed with a fresh counter and reported remaining 999. -/
theorem c4_starter_window_rollover :
    (((runRequests "S" "starter" rolloverTrace Store.empty).fst.take 1000).all
        fun o => o.allowed) = true
    ∧ (runRequests "S" "starter" rolloverTrace Store.empty).fst.drop 1000 =
        [⟨false, 429, some "RATE_LIMIT_EXCEEDED", 1000, 0, 3600000⟩,
         ⟨true, 200, none, 1000, 999, 7200000⟩] := by
  constructor <;> decide

/-- C10.  A plan string outside {free, starter, pro, scale, enterprise}
falls back to the free-plan limits (100 requests per hour) in both the
middleware and the status query: the reported limit is 100, and the
request is allowed exactly when the current hourly counter is below
100 — the subject is neither rejected outright nor left unlimited. -/
theorem c10_unknown_plan_falls_back_to_free (plan userId : String)
    (store : Store) (now : Nat) (h1 : plan ≠ "free") (h2 : plan ≠ "starter")
    (h3 : plan ≠ "pro") (h4 : plan ≠ "scale") (h5 : plan ≠ "enterprise") :
    limitsFor plan = freeLimits
    ∧ (getRateLimitStatus store userId plan now).limit = 100
    ∧ (rateLimitMiddleware store userId plan now).fst.limit = 100
    ∧ ((rateLimitMiddleware store userId plan now).fst.allowed = true ↔
        (store.get (rateLimitKey userId (now / 3600000 * 3600000))).getD 0 < 100) := by
  have hL : limitsFor plan = freeLimits := by
    unfold limitsFor
    rw [RATE_LIMITS_unknown plan h1 h2 h3 h4 h5]
    rfl
  refine ⟨hL, ?_, ?_, ?_⟩
  · simp [getRateLimitStatus, hL, freeLimits]
  · simp only [rateLimitMiddleware, hL, freeLimits]
    split <;> rfl
  · simp only [rateLimitMiddleware, hL, freeLimits]
    split <;> rename_i h <;> simp <;> omega

/-! ## Theorems: authentication gate -/

/-- C9 counterexample.  `"mf_abc"` is not `mf_` + 64 lowercase hex
characters, yet `authMiddleware` does not answer
`INVALID_API_KEY_FORMAT`: the header passes the only format check (the
`mf_` prefix) and reaches the cache/database lookup. -/
theorem c9_counterexample_short_key_reaches_lookup :
    claimedKeyFormat "mf_abc" = false
    ∧ authFormatGate (some "mf_abc") = AuthDecision.lookupKey "mf_abc" := by
  constructor <;> decide

/-- C9 amended: the only format validation performed before any lookup
is the `mf_` prefix check — a header value is rejected with
`INVALID_API_KEY_FORMAT` exactly when it does not start with `"mf_"`,
and every header with that prefix (whatever its length or characters)
proceeds to the hash-keyed cache/database lookup. -/
theorem c9_only_prefix_checked_before_lookup (h : String) :
    (authFormatGate (some h) = AuthDecision.badFormat ↔
      ¬ jsStartsWith h "mf_" = true)
    ∧ (authFormatGate (some h) = AuthDecision.lookupKey h ↔
      jsStartsWith h "mf_" = true) := by
  unfold authFormatGate
  cases hs : jsStartsWith h "mf_" <;> simp [hs]

/-! ## Theorems: confidence scoring -/

/-- Helper: the code's confidence score equals the claim's formula. -/
lemma calculateConfidenceScore_eq_claimed (pq : ProcessedQuery)
    (ts : List Track) :
    calculateConfidenceScore pq ts = claimedConfidence pq ts := by
  unfold calculateConfidenceScore claimedConfidence
  by_cases h0 : ts.length = 0
  · simp [h0]
  · rw [if_neg h0, if_neg h0]
    cases hbpm : pq.filters.bpm with
    | none =>
      simp only [hbpm]
      split_ifs <;> ring
    | some range =>
      simp only [hbpm]
      split_ifs <;> try ring
      all_goals
        rename_i hm
        rw [Nat.le_zero.mp (Nat.not_lt.mp hm)]
        push_cast
        ring

/-- Helper: the code's confidence score is nonnegative. -/
lemma calculateConfidenceScore_nonneg (pq : ProcessedQuery)
    (ts : List Track) : 0 ≤ calculateConfidenceScore pq ts := by
  unfold calculateConfidenceScore
  by_cases h0 : ts.length = 0
  · simp [h0]
  · rw [if_neg h0]
    refine le_min ?_ (by norm_num)
    cases pq.filters.bpm <;> split_ifs <;> positivity

/-- Helper: the code's confidence score is at most one. -/
lemma calculateConfidenceScore_le_one (pq : ProcessedQuery)
    (ts : List Track) : calculateConfidenceScore pq ts ≤ 1 := by
  unfold calculateConfidenceScore
  by_cases h0 : ts.length = 0
  · simp [h0]
  · rw [if_neg h0]
    exact min_le_right _ _

/-- C6.  `calculateConfidenceScore` is a pure function equal to the
claimed formula — exactly 0 on an empty track list, otherwise
`0.5 + min(n/10, 0.3)` plus the analysis-coverage term when at least
one track completed analysis, plus the BPM-match term (over analyzed
tracks only) when a BPM filter is present and at least one analyzed
track exists — and its value lies in `[0, 1]` for every input. -/
theorem c6_confidence_formula_and_bounds (pq : ProcessedQuery)
    (ts : List Track) :
    calculateConfidenceScore pq ts = claimedConfidence pq ts
    ∧ calculateConfidenceScore pq [] = 0
    ∧ 0 ≤ calculateConfidenceScore pq ts
    ∧ calculateConfidenceScore pq ts ≤ 1 :=
  ⟨calculateConfidenceScore_eq_claimed pq ts, rfl,
    calculateConfidenceScore_nonneg pq ts,
    calculateConfidenceScore_le_one pq ts⟩

/-! ## Theorems: search-result de-duplication -/

/-- Helper: the `findIndex === index` filter of the controller equals
first-occurrence de-duplication.  `full` is the whole array; `t` is the
suffix starting at absolute position `k`; `b` collects the ids already
seen in the prefix (as a predicate), and the hypothesis ties
`findIndex` over `full` to `findIdx?` over the suffix for positions
`≥ k`. -/
lemma dedupeByIdAux_eq_keepFirst (full : List YTResult) :
    ∀ (t : List YTResult) (k : Nat) (b : String → Bool),
    (∀ r ∈ t, ∀ i, k ≤ i →
      ((full.findIdx? fun q => q.id == r.id) = some i ↔
        (b r.id = false ∧ (t.findIdx? (fun q => q.id == r.id) k) = some i))) →
    dedupeByIdAux full k t = keepFirstById (t.filter fun r => !(b r.id))
  | [], _, _, _ => by simp [dedupeByIdAux, keepFirstById]
  | a :: t, k, b, H => by
    have hc : ((full.findIdx? fun q => q.id == a.id) = some k) ↔ b a.id = false := by
      have h := H a (List.mem_cons_self a t) k (Nat.le_refl k)
      simpa [List.findIdx?_cons] using h
    have H2 : ∀ r ∈ t, ∀ i, k + 1 ≤ i →
        ((full.findIdx? fun q => q.id == r.id) = some i ↔
          ((b r.id || (r.id == a.id)) = false ∧
            (t.findIdx? (fun q => q.id == r.id) (k + 1)) = some i)) := by
      intro r hr i hi
      have Hr := H r (List.mem_cons_of_mem a hr) i (Nat.le_of_succ_le hi)
      rw [List.findIdx?_cons] at Hr
      by_cases heq : a.id = r.id
      · have h1 : (a.id == r.id) = true := by simp [heq]
        have h2 : (r.id == a.id) = true := by simp [heq]
        rw [if_pos h1] at Hr
        constructor
        · intro hL
          rcases Hr.mp hL with ⟨-, hki⟩
          exact absurd (Option.some.inj hki) (by omega)
        · rintro ⟨hb2, -⟩
          rw [h2] at hb2
          simp at hb2
      · have h1 : ¬ ((a.id == r.id) = true) := by simp [heq]
        have h2 : (r.id == a.id) = false := by
          simp only [beq_eq_false_iff_ne, ne_eq]
          exact fun hh => heq hh.symm
        rw [if_neg h1] at Hr
        rw [Hr, h2]
        simp
    have IH := dedupeByIdAux_eq_keepFirst full t (k + 1)
      (fun s => b s || (s == a.id)) H2
    by_cases hb : b a.id = false
    · have hcond : (full.findIdx? fun q => q.id == a.id) = some k := hc.mpr hb
      simp only [dedupeByIdAux, if_pos hcond]
      rw [List.filter_cons_of_pos (by simp [hb])]
      rw [keepFirstById]
      congr 1
      rw [List.filter_filter, IH]
      refine congrArg keepFirstById ?_
      apply List.filter_congr
      intro r _
      cases hbr : b r.id <;> cases hra : (r.id == a.id) <;> simp [hbr, hra]
    · have hbt : b a.id = true := by
        cases hx : b a.id
        · exact absurd hx hb
        · rfl
      have hcond : ¬ ((full.findIdx? fun q => q.id == a.id) = some k) := by
        intro hx
        exact hb (hc.mp hx)
      simp only [dedupeByIdAux, if_neg hcond]
      rw [List.filter_cons_of_neg (by simp [hbt])]
      rw [IH]
      congr 1
      apply List.filter_congr
      intro r _
      by_cases hra : r.id = a.id
      · have : b r.id = true := by rw [hra, hbt]
        simp [this]
      · simp [hra]

/-- Helper: the controller's de-duplication filter equals
first-occurrence de-duplication. -/
lemma dedupeById_eq_keepFirstById (l : List YTResult) :
    dedupeById l = keepFirstById l := by
  have h := dedupeByIdAux_eq_keepFirst l l 0 (fun _ => false)
    (by intro r hr i hi; simp)
  simpa [dedupeById] using h

/-- Helper: every element kept by `keepFirstById` comes from the input
list. -/
lemma keepFirstById_subset (l : List YTResult) :
    ∀ r ∈ keepFirstById l, r ∈ l := by
  induction l using keepFirstById.induct with
  | case1 => intro r hr; simp [keepFirstById] at hr
  | case2 a t IH =>
    intro r hr
    rw [keepFirstById] at hr
    rcases List.mem_cons.mp hr with h | h
    · exact h ▸ List.mem_cons_self a t
    · exact List.mem_cons_of_mem a (List.mem_of_mem_filter (IH r h))

/-- Helper: removing non-`x` elements does not change the first
element whose id is `x`. -/
lemma find?_filter_ne (s x : String) (hsx : ¬ s = x) :
    ∀ t : List YTResult,
      ((t.filter fun r => !(r.id == s)).find? fun r => r.id == x)
        = t.find? fun r => r.id == x := by
  intro t
  induction t with
  | nil => rfl
  | cons r t IH =>
    by_cases hrx : r.id = x
    · have hxs : ¬ x = s := fun hh => hsx hh.symm
      simp [List.filter_cons, List.find?_cons, hrx, hxs]
    · by_cases hrs : r.id = s
      · simp [List.filter_cons, List.find?_cons, hrx, hrs, hsx, IH]
      · simp [List.filter_cons, List.find?_cons, hrx, hrs, IH]

/-- Helper: first-occurrence de-duplication preserves, for every id,
the first element carrying that id. -/
lemma find?_keepFirstById (x : String) :
    ∀ l : List YTResult,
      ((keepFirstById l).find? fun r => r.id == x)
        = l.find? fun r => r.id == x := by
  intro l
  induction l using keepFirstById.induct with
  | case1 => rw [keepFirstById]
  | case2 a t IH =>
    rw [keepFirstById]
    by_cases hax : a.id = x
    · rw [List.find?_cons_of_pos _ (by simp [hax]),
        List.find?_cons_of_pos _ (by simp [hax])]
    · rw [List.find?_cons_of_neg _ (by simp [hax]),
        List.find?_cons_of_neg _ (by simp [hax])]
      rw [IH]
      exact find?_filter_ne a.id x hax t

/-- Helper: first-occurrence de-duplication yields pairwise-distinct
ids. -/
lemma keepFirstById_pairwise (l : List YTResult) :
    (keepFirstById l).Pairwise fun r s => ¬ r.id = s.id := by
  induction l using keepFirstById.induct with
  | case1 => rw [keepFirstById]; exact List.Pairwise.nil
  | case2 a t IH =>
    rw [keepFirstById]
    refine List.Pairwise.cons ?_ IH
    intro s hs
    have hmem := keepFirstById_subset _ s hs
    have := List.of_mem_filter hmem
    simp only [Bool.not_eq_true'] at this
    intro hcontra
    rw [← hcontra] at this
    simp at this

/-- C7.  The merged candidate list of the Search stage keeps, for every
external platform ID, exactly one entry — the first occurrence in the
flattening of the per-term result lists in term order (`Promise.all`
positions sub-results by term, not by completion order, so this is the
earliest term's copy) — and is truncated to at most `maxTracks`
entries; on the concrete example with terms returning `"X"` as
`"Foo"` then `"Bar"`, the merge keeps the `"Foo"` copy only. -/
theorem c7_dedup_follows_term_priority (termResults : List (List YTResult))
    (maxTracks : Nat) (x : String) :
    ((dedupeById termResults.flatten).find? fun r => r.id == x)
        = (termResults.flatten.find? fun r => r.id == x)
    ∧ (dedupeById termResults.flatten).Pairwise (fun r s => ¬ r.id = s.id)
    ∧ (mergeUnique termResults maxTracks).length ≤ maxTracks
    ∧ mergeUnique [[⟨"X", "Foo", ""⟩], [⟨"X", "Bar", ""⟩]] 10
        = [⟨"X", "Foo", ""⟩] := by
  refine ⟨?_, ?_, ?_, by decide⟩
  · rw [dedupeById_eq_keepFirstById]
    exact find?_keepFirstById x _
  · rw [dedupeById_eq_keepFirstById]
    exact keepFirstById_pairwise _
  · exact List.length_take_le _ _

/-- Witness for C10 at the concrete unknown plan `"platinum"` with an
empty store. -/
theorem c10_witness :
    ("platinum" ≠ "free" ∧ "platinum" ≠ "starter" ∧ "platinum" ≠ "pro"
      ∧ "platinum" ≠ "scale" ∧ "platinum" ≠ "enterprise")
    ∧ (limitsFor "platinum" = freeLimits
      ∧ (getRateLimitStatus Store.empty "u" "platinum" 0).limit = 100
      ∧ (rateLimitMiddleware Store.empty "u" "platinum" 0).fst.limit = 100
      ∧ ((rateLimitMiddleware Store.empty "u" "platinum" 0).fst.allowed = true ↔
          (Store.get Store.empty (rateLimitKey "u" (0 / 3600000 * 3600000))).getD 0
            < 100)) :=
  ⟨⟨by decide, by decide, by decide, by decide, by decide⟩,
    c10_unknown_plan_falls_back_to_free "platinum" "u" Store.empty 0
      (by decide) (by decide) (by decide) (by decide) (by decide)⟩

/-! ## Theorems: pipeline degradation -/

/-- C2 amended.  When the understanding call fails (and the single-term
fallback search succeeds), `processMusic` still answers 200 with tracks
derived from searching the raw input text as the only term — but the
understanding stage is logged `completed`, never `failed`: the fallback
happens inside `LLMService.processRequest` and the controller cannot
observe it. -/
theorem c2_understanding_failure_degrades (c : Collaborators)
    (userQuery : String) (maxTracks : Nat) (flag : Bool) (quality : String)
    (rs : List YTResult) (hq : ¬ userQuery = "") (hllm : c.llm = none)
    (hs : c.search userQuery maxTracks = Except.ok rs) :
    processMusic c userQuery maxTracks flag quality =
      ⟨200, none,
        (mergeUnique [rs] maxTracks).map (buildTrack c flag quality),
        ((mergeUnique [rs] maxTracks).map (buildTrack c flag quality)).length,
        [⟨"llm_processing", "completed"⟩, ⟨"youtube_search", "completed"⟩,
          ⟨"track_processing", "completed"⟩],
        calculateConfidenceScore (LLMService.processRequest userQuery none)
          ((mergeUnique [rs] maxTracks).map (buildTrack c flag quality))⟩
    ∧ ProcessingStep.mk "llm_processing" "completed"
        ∈ (processMusic c userQuery maxTracks flag quality).processingSteps
    ∧ ¬ ProcessingStep.mk "llm_processing" "failed"
        ∈ (processMusic c userQuery maxTracks flag quality).processingSteps := by
  have hmain : processMusic c userQuery maxTracks flag quality =
      ⟨200, none,
        (mergeUnique [rs] maxTracks).map (buildTrack c flag quality),
        ((mergeUnique [rs] maxTracks).map (buildTrack c flag quality)).length,
        [⟨"llm_processing", "completed"⟩, ⟨"youtube_search", "completed"⟩,
          ⟨"track_processing", "completed"⟩],
        calculateConfidenceScore (LLMService.processRequest userQuery none)
          ((mergeUnique [rs] maxTracks).map (buildTrack c flag quality))⟩ := by
    simp only [processMusic, if_neg hq, hllm, LLMService.processRequest,
      List.take_succ_cons, List.take_nil, searchAll, List.length_cons,
      List.length_nil, Nat.zero_add, Nat.add_sub_cancel, Nat.div_one, hs]
  refine ⟨hmain, ?_, ?_⟩
  · rw [hmain]
    simp
  · rw [hmain]
    simp

/-- Witness for C2 at the concrete collaborators `fallbackDemoCollab`
(failing understanding, succeeding search). -/
theorem c2_witness :
    (¬ "lofi beats" = "") ∧ fallbackDemoCollab.llm = none
    ∧ fallbackDemoCollab.search "lofi beats" 10
        = Except.ok [⟨"vid1", "Test Song", "a description"⟩]
    ∧ ProcessingStep.mk "llm_processing" "completed"
        ∈ (processMusic fallbackDemoCollab "lofi beats" 10 true "standard").processingSteps
    ∧ ¬ ProcessingStep.mk "llm_processing" "failed"
        ∈ (processMusic fallbackDemoCollab "lofi beats" 10 true "standard").processingSteps :=
  ⟨by decide, rfl, rfl,
    (c2_understanding_failure_degrades fallbackDemoCollab "lofi beats" 10 true
      "standard" [⟨"vid1", "Test Song", "a description"⟩]
      (by decide) rfl rfl).2.1,
    (c2_understanding_failure_degrades fallbackDemoCollab "lofi beats" 10 true
      "standard" [⟨"vid1", "Test Song", "a description"⟩]
      (by decide) rfl rfl).2.2⟩

/-- C2 counterexample.  With the understanding collaborator failing and
the search succeeding, the response is 200 with tracks from the
fallback search — but no `processingSteps` entry for the understanding
stage is marked `failed` (the entry says `completed`), contradicting
the claim's last conjunct. -/
theorem c2_counterexample_no_failed_step :
    fallbackDemoCollab.llm = none
    ∧ (processMusic fallbackDemoCollab "lofi beats" 10 true "standard").httpStatus
        = 200
    ∧ ¬ (processMusic fallbackDemoCollab "lofi beats" 10 true "standard").tracks = []
    ∧ ((processMusic fallbackDemoCollab "lofi beats" 10 true "standard").processingSteps.all
        fun s => !(s.step == "llm_processing" && s.status == "failed")) = true := by
  refine ⟨rfl, ?_, ?_, ?_⟩ <;> decide

/-- C5 amended.  When all search sub-queries fail, the rejection of
`Promise.all` falls through to the controller's outer catch:
`processMusic` answers `500 PROCESSING_ERROR` with no tracks and an
empty step log — the search failure is surfaced as an error response,
not absorbed into a zero-track 200 with a `failed` search step. -/
theorem c5_all_searches_fail_yields_500 (c : Collaborators)
    (userQuery : String) (maxTracks : Nat) (flag : Bool) (quality : String)
    (hq : ¬ userQuery = "")
    (hfail : ∀ term ∈ (LLMService.processRequest userQuery c.llm).searchTerms.take 3,
      c.search term
        ((maxTracks + (LLMService.processRequest userQuery c.llm).searchTerms.length - 1)
          / (LLMService.processRequest userQuery c.llm).searchTerms.length)
        = Except.error ())
    (hne : ¬ (LLMService.processRequest userQuery c.llm).searchTerms.take 3 = []) :
    processMusic c userQuery maxTracks flag quality
      = ⟨500, some "PROCESSING_ERROR", [], 0, [], 0⟩ := by
  simp only [processMusic, if_neg hq]
  rcases hterms : (LLMService.processRequest userQuery c.llm).searchTerms.take 3
    with _ | ⟨t0, rest⟩
  · exact absurd hterms hne
  · have h0 := hfail t0 (by rw [hterms]; exact List.mem_cons_self _ _)
    simp only [searchAll, h0]

/-- Witness for C5 at the concrete collaborators `failingSearchCollab`
(every search rejects). -/
theorem c5_witness :
    (¬ "peak time trance" = "")
    ∧ (¬ (LLMService.processRequest "peak time trance"
        failingSearchCollab.llm).searchTerms.take 3 = [])
    ∧ processMusic failingSearchCollab "peak time trance" 10 true "standard"
        = ⟨500, some "PROCESSING_ERROR", [], 0, [], 0⟩ :=
  ⟨by decide, by decide,
    c5_all_searches_fail_yields_500 failingSearchCollab "peak time trance" 10
      true "standard" (by decide) (fun _ _ => rfl) (by decide)⟩

/-- C5 counterexample.  With every search sub-query failing, the
response is `500 PROCESSING_ERROR` — not the HTTP 200 zero-track
response with a `failed` search step that the claim requires. -/
theorem c5_counterexample_500_not_200 :
    failingSearchCollab.search "peak time trance" 10 = Except.error ()
    ∧ (processMusic failingSearchCollab "peak time trance" 10 true "standard").httpStatus
        = 500
    ∧ (processMusic failingSearchCollab "peak time trance" 10 true "standard").errorCode
        = some "PROCESSING_ERROR"
    ∧ ¬ (processMusic failingSearchCollab "peak time trance" 10 true "standard").httpStatus
        = 200 := by
  refine ⟨rfl, ?_, ?_, ?_⟩ <;> decide

/-! ## Theorems: candidate persistence -/

/-- Helper: upserting a candidate whose id is absent appends it. -/
lemma saveTrack_fresh (t : Track) :
    ∀ db : List Track,
      (∀ row ∈ db, (row.youtubeId == t.youtubeId) = false) →
      saveTrackToDatabase db t = db ++ [t] := by
  intro db
  induction db with
  | nil => intro _; rfl
  | cons r rest IH =>
    intro h
    have hr := h r (List.mem_cons_self r rest)
    simp only [saveTrackToDatabase, hr]
    rw [IH fun row hrow => h row (List.mem_cons_of_mem r hrow)]
    simp

/-- Helper: upserting into a table whose only matching row is the last
one merges into that row. -/
lemma saveTrack_append_match (t1 t2 : Track)
    (hid : (t1.youtubeId == t2.youtubeId) = true) :
    ∀ db : List Track,
      (∀ row ∈ db, (row.youtubeId == t2.youtubeId) = false) →
      saveTrackToDatabase (db ++ [t1]) t2 = db ++ [mergeOnConflict t1 t2] := by
  intro db
  induction db with
  | nil =>
    intro _
    simp only [List.nil_append, saveTrackToDatabase, hid]
    simp
  | cons r rest IH =>
    intro h
    have hr := h r (List.mem_cons_self r rest)
    simp only [List.cons_append, saveTrackToDatabase, hr, Bool.false_eq_true,
      if_false, List.append_eq]
    rw [IH fun row hrow => h row (List.mem_cons_of_mem r hrow)]

/-- C8 amended.  The upsert is keyed by `youtube_id` and is
insert-or-merge: running the pipeline twice on the same external ID
converges to a single row; on conflict `title`, `artist` and
`analysis_status` always take the new run's value and `bpm` /
`musical_key` take the new value only when present — but every other
analysis field (camelot key, energy level, loudness, confidences,
waveform, genre, mood) keeps the stored value even when the new run
supplies one, because it is absent from the `DO UPDATE SET` list. -/
theorem c8_upsert_keyed_merge (db : List Track) (t1 t2 : Track)
    (hid : t1.youtubeId = t2.youtubeId)
    (hfresh : ∀ row ∈ db, (row.youtubeId == t1.youtubeId) = false) :
    saveTrackToDatabase (saveTrackToDatabase db t1) t2
        = db ++ [mergeOnConflict t1 t2]
    ∧ (mergeOnConflict t1 t2).title = t2.title
    ∧ (mergeOnConflict t1 t2).artist = t2.artist
    ∧ (mergeOnConflict t1 t2).analysisStatus = t2.analysisStatus
    ∧ (mergeOnConflict t1 t2).bpm = t2.bpm.or t1.bpm
    ∧ (mergeOnConflict t1 t2).musicalKey = t2.musicalKey.or t1.musicalKey
    ∧ (t2.bpm = none → (mergeOnConflict t1 t2).bpm = t1.bpm)
    ∧ (mergeOnConflict t1 t2).energyLevel = t1.energyLevel
    ∧ (mergeOnConflict t1 t2).camelotKey = t1.camelotKey
    ∧ (mergeOnConflict t1 t2).loudness = t1.loudness := by
  refine ⟨?_, rfl, rfl, rfl, rfl, rfl, ?_, rfl, rfl, rfl⟩
  · rw [saveTrack_fresh t1 db hfresh]
    exact saveTrack_append_match t1 t2 (by simp [hid]) db
      (fun row hrow => hid ▸ hfresh row hrow)
  · intro hnone
    simp [mergeOnConflict, hnone]

/-- Witness for C8 at the concrete rows `storedTrack` / `rerunTrack`
over an initially empty table. -/
theorem c8_witness :
    storedTrack.youtubeId = rerunTrack.youtubeId
    ∧ saveTrackToDatabase (saveTrackToDatabase [] storedTrack) rerunTrack
        = [] ++ [mergeOnConflict storedTrack rerunTrack]
    ∧ (mergeOnConflict storedTrack rerunTrack).title = rerunTrack.title
    ∧ (rerunTrack.bpm = none →
        (mergeOnConflict storedTrack rerunTrack).bpm = storedTrack.bpm)
    ∧ (mergeOnConflict storedTrack rerunTrack).energyLevel
        = storedTrack.energyLevel :=
  ⟨rfl,
    (c8_upsert_keyed_merge [] storedTrack rerunTrack rfl (by simp)).1,
    (c8_upsert_keyed_merge [] storedTrack rerunTrack rfl (by simp)).2.1,
    (c8_upsert_keyed_merge [] storedTrack rerunTrack rfl (by simp)).2.2.2.2.2.2.1,
    (c8_upsert_keyed_merge [] storedTrack rerunTrack rfl (by simp)).2.2.2.2.2.2.2.1⟩

/-- C8 counterexample.  A second run supplying a new energy level
(0.9) does not update the stored row: the merged row keeps the first
run's 0.5, contradicting the claim that every numeric/analysis field
takes the new run's value when supplied. -/
theorem c8_counterexample_energy_keeps_old_value :
    rerunTrack.energyLevel = some 0.9
    ∧ saveTrackToDatabase [storedTrack] rerunTrack
        = [mergeOnConflict storedTrack rerunTrack]
    ∧ (mergeOnConflict storedTrack rerunTrack).energyLevel = some 0.5
    ∧ ¬ (mergeOnConflict storedTrack rerunTrack).energyLevel
        = rerunTrack.energyLevel := by
  refine ⟨rfl, ?_, rfl, ?_⟩
  · simp [saveTrackToDatabase, storedTrack, rerunTrack]
  · simp [mergeOnConflict, storedTrack, rerunTrack]
    norm_num

end MusicForge
